import Mathlib

/-!
Verification of the Azure Quantum workspace command layer of the qsharp
VS Code extension (src/vscode/src/azure/commands.ts), against the
natural-language specification of the repository.

The handlers in commands.ts are embedded as pure functions from an
environment (the results of the external calls they await) to a list of
observable effects, plus the updated workspace registry where a handler
mutates it.  The tree provider (treeView.ts) and the refresh scheduler
(treeRefresher.ts) are not part of the given sources; where a claim
depends on them they are modelled from the specification, and each such
definition says so in its doc comment.
-/

namespace QSharpAzure

/-- One submitted execution request and its remote lifecycle status
(treeView.ts `Job`; the fields used by commands.ts). `outputDataUri` is
optional in the source; `none` models `undefined`. -/
structure Job where
  id : String
  status : String
  outputDataUri : Option String
  deriving Repr, DecidableEq

/-- A hardware/simulator backend offered by a provider (treeView.ts `Target`;
the field used by commands.ts). -/
structure Target where
  id : String
  deriving Repr, DecidableEq

/-- A vendor within a workspace, owning a list of targets. -/
structure Provider where
  id : String
  targets : List Target
  deriving Repr, DecidableEq

/-- A named remote endpoint plus credentials, with the current
provider/job snapshot (treeView.ts `WorkspaceConnection`). -/
structure WorkspaceConnection where
  id : String
  name : String
  endpointUri : String
  tenantId : String
  apiKey : String
  providers : List Provider
  jobs : List Job
  deriving Repr, DecidableEq, Inhabited

/-- The payload carried by a tree item: workspace, provider, target or
job.  The source stores a `type` string discriminant next to an untyped
`itemData`; here the variant is the discriminant and the casts
(`itemData as Target` etc.) are the projections below. -/
inductive TreeItemData where
  | workspace (w : WorkspaceConnection)
  | provider (p : Provider)
  | target (t : Target)
  | job (j : Job)
  deriving Repr, DecidableEq

/-- A node of the quantum-workspaces tree as seen by the command
handlers: its payload, the workspace it belongs to, and its display
label (`undefined` modelled as `none`). -/
structure WorkspaceTreeItem where
  itemData : TreeItemData
  workspace : WorkspaceConnection
  label : Option String
  deriving Repr, DecidableEq

/-- The `type` discriminant string of a tree item, as compared by the
handlers (`treeItem?.type !== "target"` and so on). -/
def WorkspaceTreeItem.type (ti : WorkspaceTreeItem) : String :=
  match ti.itemData with
  | .workspace _ => "workspace"
  | .provider _ => "provider"
  | .target _ => "target"
  | .job _ => "job"

/-- The cast `treeItem.itemData as Target`, defined on every payload the
way the untyped cast is; handlers only evaluate it after checking
`type === "target"`. -/
def WorkspaceTreeItem.asTarget (ti : WorkspaceTreeItem) : Target :=
  match ti.itemData with
  | .target t => t
  | .workspace w => ⟨w.id⟩
  | .provider p => ⟨p.id⟩
  | .job j => ⟨j.id⟩

/-- The cast `treeItem.itemData as Job`. -/
def WorkspaceTreeItem.asJob (ti : WorkspaceTreeItem) : Job :=
  match ti.itemData with
  | .job j => j
  | .workspace w => ⟨w.id, "", none⟩
  | .provider p => ⟨p.id, "", none⟩
  | .target t => ⟨t.id, "", none⟩

/-- The cast `treeItem.itemData as WorkspaceConnection`. -/
def WorkspaceTreeItem.asWorkspace (ti : WorkspaceTreeItem) : WorkspaceConnection :=
  match ti.itemData with
  | .workspace w => w
  | _ => ti.workspace

/-- Modelled from the spec: treeView.ts (the `WorkspaceTreeProvider`) is
not among the given sources.  Section 4.1 of the spec describes the
Workspace Registry as an in-memory mapping of workspace id to
WorkspaceConnection; it is embedded as a list of connections with unique
ids kept in insertion order. -/
abbrev Registry := List WorkspaceConnection

/-- Modelled from the spec: `upsert(workspace)` inserts or replaces by
id, replacing the entire providers/jobs snapshot (treeView.ts
`updateWorkspace`). -/
def upsert (r : Registry) (w : WorkspaceConnection) : Registry :=
  if (List.any r fun x => x.id == w.id) then
    List.map (fun x => if x.id == w.id then w else x) r
  else
    r ++ [w]

/-- Modelled from the spec: `remove(id)` deletes the entry, with no
error if absent (treeView.ts `removeWorkspace`). -/
def removeWs (r : Registry) (id : String) : Registry :=
  List.filter (fun x => x.id != id) r

/-- Modelled from the spec: `get(id)` returns the optional snapshot
(treeView.ts `getWorkspace`). -/
def getWs (r : Registry) (id : String) : Option WorkspaceConnection :=
  List.find? (fun x => x.id == id) r

/-- Modelled from the spec: `listIds()` returns the known ids
(treeView.ts `getWorkspaceIds`). -/
def listIds (r : Registry) : List String :=
  List.map (fun x => x.id) r

/-- Modelled from the spec: the per-id generation state treeRefresher.ts
keeps for Refresh Cycles is not among the given sources.  Section 5 of
the spec prescribes a monotonically increasing generation counter per
workspace id that newer cycles bump, so that a superseded cycle detects
supersession and exits without mutating the Registry. -/
structure RefreshState where
  registry : Registry
  generations : String → Nat

/-- Modelled from the spec: starting a Refresh Cycle for a workspace id
bumps that id generation counter and hands the new generation to the
started cycle (supersession of any older cycle for the same id). -/
def startRefreshCycleGen (s : RefreshState) (wsId : String) : RefreshState × Nat :=
  let g := s.generations wsId + 1
  ({ s with generations := fun id => if id = wsId then g else s.generations id }, g)

/-- Modelled from the spec: one tick of a Refresh Cycle holding
generation `cycleGen` for workspace `wsId`.  The fetched snapshot is
upserted into the Registry only when the cycle is still the current
generation; a superseded cycle leaves the state untouched. -/
def refreshTick (s : RefreshState) (wsId : String) (cycleGen : Nat)
    (snapshot : WorkspaceConnection) : RefreshState :=
  if s.generations wsId = cycleGen then
    { s with registry := upsert s.registry snapshot }
  else s

/-- One hexadecimal digit, lowercase, as produced by JSON.stringify for
control-character escapes. -/
def hexDigit (n : Nat) : Char :=
  if n < 10 then Char.ofNat (48 + n) else Char.ofNat (87 + n)

/-- The escaping JSON.stringify applies to one character inside a string
literal. -/
def escapeJsonChar (c : Char) : String :=
  if c = '"' then "\\\""
  else if c = '\\' then "\\\\"
  else if c.toNat = 8 then "\\b"
  else if c.toNat = 12 then "\\f"
  else if c = '\n' then "\\n"
  else if c.toNat = 13 then "\\r"
  else if c = '\t' then "\\t"
  else if c.toNat < 32 then
    "\\u00" ++ String.mk [hexDigit (c.toNat / 16), hexDigit (c.toNat % 16)]
  else String.mk [c]

/-- A JSON string literal for `s`, as JSON.stringify renders it. -/
def jsonString (s : String) : String :=
  "\"" ++ String.join (List.map escapeJsonChar s.data) ++ "\""

/-- A JSON array from already-serialized elements. -/
def jsonArray (elems : List String) : String :=
  "[" ++ String.intercalate "," elems ++ "]"

/-- JSON.stringify of a Job object; the optional `outputDataUri` key is
omitted when `undefined`, as JSON.stringify does. -/
def jobJson (j : Job) : String :=
  "\x7b\"id\":" ++ jsonString j.id ++ ",\"status\":" ++ jsonString j.status ++
    (match j.outputDataUri with
     | none => ""
     | some u => ",\"outputDataUri\":" ++ jsonString u) ++ "\x7d"

/-- JSON.stringify of a Target object. -/
def targetJson (t : Target) : String :=
  "\x7b\"id\":" ++ jsonString t.id ++ "\x7d"

/-- JSON.stringify of a Provider object. -/
def providerJson (p : Provider) : String :=
  "\x7b\"id\":" ++ jsonString p.id ++ ",\"targets\":" ++
    jsonArray (List.map targetJson p.targets) ++ "\x7d"

/-- JSON.stringify of a WorkspaceConnection object, keys in the
insertion order of the object literal built by `saveWorkspaceList`. -/
def workspaceConnectionJson (w : WorkspaceConnection) : String :=
  "\x7b\"id\":" ++ jsonString w.id ++
    ",\"name\":" ++ jsonString w.name ++
    ",\"endpointUri\":" ++ jsonString w.endpointUri ++
    ",\"tenantId\":" ++ jsonString w.tenantId ++
    ",\"apiKey\":" ++ jsonString w.apiKey ++
    ",\"providers\":" ++ jsonArray (List.map providerJson w.providers) ++
    ",\"jobs\":" ++ jsonArray (List.map jobJson w.jobs) ++ "\x7d"

/-- The single secret-store key under which the workspace list is
persisted (commands.ts `workspacesSecret`). -/
def workspacesSecret : String := "qsharp-vscode.workspaces"

/-- The record pushed onto `savedWorkspaces` for one workspace in
`saveWorkspaceList`: only the general workspace information, with the
providers and jobs lists emptied. -/
def persistedRecord (w : WorkspaceConnection) : WorkspaceConnection :=
  { id := w.id, name := w.name, endpointUri := w.endpointUri,
    tenantId := w.tenantId, apiKey := w.apiKey, providers := [], jobs := [] }

/-- An observable effect of a command handler: user-visible messages,
remote API calls, Refresh Cycle starts, and secret-store writes. -/
inductive Effect where
  | showError (message : String) (modal : Bool) (detail : Option String)
  | showInformation (message : String)
  | submitJobCall (token qir providerId targetId : String) (endpointUri wsId : String)
  | startCycle (wsId : String) (priorityJobId : Option String)
  | persist (key : String) (value : String)
  | getJobFilesCall (containerName blobName token : String) (endpointUri wsId : String)
  | showDocument (content : String)
  deriving Repr, DecidableEq

/-- commands.ts `saveWorkspaceList`: read every workspace back from the
provider by id, strip each to its general information, and store the
JSON-encoded list under the single secret-store key. -/
def saveWorkspaceList (r : Registry) : Effect :=
  let workspaces := List.map (fun id => (getWs r id).getD default) (listIds r)
  let savedWorkspaces := List.map persistedRecord workspaces
  Effect.persist workspacesSecret
    (jsonArray (List.map workspaceConnectionJson savedWorkspaces))

/-- Outcome of `getQirForActiveWindow`: a program string, a thrown error
named QirGenerationError carrying a message, or any other thrown error
(which the handler catch swallows). -/
inductive QirResult where
  | ok (qir : String)
  | qirGenerationError (message : String)
  | otherError
  deriving Repr, DecidableEq

/-- Outcome of `getTokenForWorkspace`: a returned value (`none` models
`undefined`, `some ""` the other falsy string) or a thrown error with
its optional message. -/
inductive TokenResult where
  | ok (token : Option String)
  | thrown (message : Option String)
  deriving Repr, DecidableEq

/-- Outcome of `submitJob`: a returned job id or a thrown error with its
optional message. -/
inductive SubmitResult where
  | ok (jobId : String)
  | thrown (message : Option String)
  deriving Repr, DecidableEq

/-- Outcome of `getJobFiles`: returned file contents or a thrown error
with its optional message. -/
inductive FetchResult where
  | ok (file : String)
  | thrown (message : Option String)
  deriving Repr, DecidableEq

/-- JavaScript truthiness of a `string | undefined` value. -/
def truthyOpt : Option String → Bool
  | none => false
  | some s => s ≠ ""

/-- The item a handler acts on: `arg || currentTreeItem` (the argument
if provided, else the currently selected item). -/
def resolveItem (arg currentTreeItem : Option WorkspaceTreeItem) :
    Option WorkspaceTreeItem :=
  match arg with
  | some ti => some ti
  | none => currentTreeItem

/-- Results of the external calls awaited by the targetSubmit handler. -/
structure SubmitEnv where
  qirResult : QirResult
  tokenResult : TokenResult
  submitResult : SubmitResult
  deriving Repr, DecidableEq

/-- The `qsharp-vscode.targetSubmit` handler of commands.ts, as the list
of effects it performs given the outcomes of its external calls. -/
def targetSubmit (env : SubmitEnv) (arg currentTreeItem : Option WorkspaceTreeItem) :
    List Effect :=
  match resolveItem arg currentTreeItem with
  | none => []
  | some treeItem =>
    if treeItem.type ≠ "target" then []
    else
      let target := treeItem.asTarget
      let providerId := (target.id.splitOn ".").headD ""
      match env.qirResult with
      | .qirGenerationError message => [.showError message false none]
      | .otherError => []
      | .ok qir =>
        if qir = "" then []
        else
          match env.tokenResult with
          | .thrown message =>
            [.showError "Failed to submit the job to Azure." true message]
          | .ok token =>
            if ¬ truthyOpt token then []
            else
              let tok := token.getD ""
              let call := Effect.submitJobCall tok qir providerId target.id
                treeItem.workspace.endpointUri treeItem.workspace.id
              match env.submitResult with
              | .thrown message =>
                [call, .showError "Failed to submit the job to Azure." true message]
              | .ok jobId =>
                if jobId ≠ "" then
                  [call, .startCycle treeItem.workspace.id (some jobId)]
                else [call]

/-- The workspace-loading part of commands.ts `initAzureWorkspaces`.
Input is the JSON.parse of the secret read for `workspacesSecret`
(`none` when no saved value was truthy).  Output is the resulting tree
provider Registry and the list of effects: for each saved workspace one
`updateWorkspace` (folded into the Registry) followed by one Refresh
Cycle start without a prioritized job. -/
def initAzureWorkspaces (savedWorkspaces : Option (List WorkspaceConnection)) :
    Registry × List Effect :=
  match savedWorkspaces with
  | none => ([], [])
  | some workspaces =>
    (List.foldl upsert [] workspaces,
     List.map (fun w => Effect.startCycle w.id none) workspaces)

/-- The three `setContext` booleans computed by the tree selection
handler. -/
structure ContextFlags where
  supportsQir : Bool
  supportsDownload : Bool
  isWorkspace : Bool
  deriving Repr, DecidableEq

/-- The `onDidChangeSelection` handler of commands.ts: from the new
selection compute the three UI-context flags and the new value of
`currentTreeItem`.  `targetSupportQir` (providerProperties.ts) is an
opaque predicate on the item label and is passed in as a parameter. -/
def onDidChangeSelection (targetSupportQir : String → Bool)
    (selection : List WorkspaceTreeItem) :
    ContextFlags × Option WorkspaceTreeItem :=
  match selection with
  | [item] =>
    ({ supportsQir := item.type == "target" && targetSupportQir (item.label.getD ""),
       supportsDownload := item.type == "job" &&
         (item.asJob.status == "Succeeded" && truthyOpt item.asJob.outputDataUri),
       isWorkspace := item.type == "workspace" },
     some item)
  | _ =>
    ({ supportsQir := false, supportsDownload := false, isWorkspace := false },
     none)

/-- The `qsharp-vscode.workspacesAdd` handler of commands.ts: input is
the result of `queryWorkspaces()` (workspace discovery).  When a
workspace was returned it is upserted, the workspace list is saved, and
a Refresh Cycle is started; otherwise nothing happens. -/
def workspacesAdd (r : Registry) (queried : Option WorkspaceConnection) :
    Registry × List Effect :=
  match queried with
  | none => (r, [])
  | some workspace =>
    let r2 := upsert r workspace
    (r2, [saveWorkspaceList r2, Effect.startCycle workspace.id none])

/-- The `qsharp-vscode.workspacesRemove` handler of commands.ts. -/
def workspacesRemove (r : Registry) (arg currentTreeItem : Option WorkspaceTreeItem) :
    Registry × List Effect :=
  match resolveItem arg currentTreeItem with
  | none => (r, [])
  | some treeItem =>
    if treeItem.type ≠ "workspace" then (r, [])
    else
      let workspace := treeItem.asWorkspace
      let r2 := removeWs r workspace.id
      (r2, [saveWorkspaceList r2])

/-- The `qsharp-vscode.downloadResults` handler of commands.ts, as the
list of effects it performs.  `uriPath` abstracts the external
`vscode.Uri.parse(...).path`; container and blob name are the second
and third `/`-separated components of that path. -/
def downloadResults (uriPath : String → String) (tokenResult : TokenResult)
    (fetchResult : FetchResult) (arg currentTreeItem : Option WorkspaceTreeItem) :
    List Effect :=
  match resolveItem arg currentTreeItem with
  | none => []
  | some treeItem =>
    if treeItem.type ≠ "job" then []
    else
      let job := treeItem.asJob
      if ¬ truthyOpt job.outputDataUri then []
      else
        let parts := (uriPath (job.outputDataUri.getD "")).splitOn "/"
        let containerName := parts.getD 1 ""
        let blobName := parts.getD 2 ""
        match tokenResult with
        | .thrown message =>
          [.showError "Failed to download the results file." true message]
        | .ok token =>
          if ¬ truthyOpt token then []
          else
            let tok := token.getD ""
            let call := Effect.getJobFilesCall containerName blobName tok
              treeItem.workspace.endpointUri treeItem.workspace.id
            match fetchResult with
            | .thrown message =>
              [call, .showError "Failed to download the results file." true message]
            | .ok file =>
              if file ≠ "" then [call, .showDocument file] else [call]

/-- A sample workspace connection used to evaluate the theorems on
concrete inputs. -/
def sampleWorkspace : WorkspaceConnection :=
  { id := "ws-1", name := "Sample", endpointUri := "https://example.quantum.azure.com",
    tenantId := "tenant-1", apiKey := "key-1", providers := [], jobs := [] }

/-- A second sample workspace with a distinct id. -/
def sampleWorkspace2 : WorkspaceConnection :=
  { id := "ws-2", name := "Sample2", endpointUri := "https://example2.quantum.azure.com",
    tenantId := "tenant-2", apiKey := "key-2", providers := [], jobs := [] }

/-- A sample target. -/
def sampleTarget : Target := ⟨"prov.sim"⟩

/-- A sample tree item of type target. -/
def sampleTargetItem : WorkspaceTreeItem :=
  { itemData := .target sampleTarget, workspace := sampleWorkspace,
    label := some "prov.sim" }

/-- A sample succeeded job with a result blob. -/
def sampleJob : Job :=
  { id := "job-1", status := "Succeeded",
    outputDataUri := some "https://blob.example.com/container-1/out.json" }

/-- A sample tree item of type job. -/
def sampleJobItem : WorkspaceTreeItem :=
  { itemData := .job sampleJob, workspace := sampleWorkspace, label := some "job-1" }

/-- A sample tree item of type workspace. -/
def sampleWorkspaceItem : WorkspaceTreeItem :=
  { itemData := .workspace sampleWorkspace, workspace := sampleWorkspace,
    label := some "Sample" }

/-- A refresh state with an empty registry and all generation counters
at zero, used to evaluate the supersession theorem concretely. -/
def refreshStateZero : RefreshState := ⟨[], fun _ => 0⟩

theorem find?_map_replace (w : WorkspaceConnection) :
    ∀ (as : List WorkspaceConnection),
      (List.any as fun x => x.id == w.id) = true →
      List.find? (fun x => x.id == w.id)
        (List.map (fun x => if x.id == w.id then w else x) as) = some w
  | [], h => by simp at h
  | a :: as, h => by
    by_cases ha : (a.id == w.id) = true
    · rw [List.map_cons, if_pos ha]
      exact List.find?_cons_of_pos (p := fun (x : WorkspaceConnection) => x.id == w.id) _ (by simp)
    · rw [List.map_cons, if_neg ha,
        List.find?_cons_of_neg (p := fun (x : WorkspaceConnection) => x.id == w.id) _ ha]
      apply find?_map_replace w as
      simp only [List.any_cons, Bool.or_eq_true] at h
      exact h.resolve_left ha

theorem find?_map_replace_other (w : WorkspaceConnection) (id : String)
    (hne : id ≠ w.id) :
    ∀ (as : List WorkspaceConnection),
      List.find? (fun x => x.id == id)
        (List.map (fun x => if x.id == w.id then w else x) as)
      = List.find? (fun x => x.id == id) as
  | [] => rfl
  | a :: as => by
    rw [List.map_cons]
    by_cases ha : (a.id == w.id) = true
    · rw [if_pos ha]
      have ha2 : a.id = w.id := by simpa using ha
      have hpa : ¬ ((a.id == id) = true) := by
        simp only [beq_iff_eq, ha2]
        exact fun hh => hne hh.symm
      have hpw : ¬ ((w.id == id) = true) := by
        simp only [beq_iff_eq]
        exact fun hh => hne hh.symm
      rw [List.find?_cons_of_neg (p := fun (x : WorkspaceConnection) => x.id == id) _ hpw,
        List.find?_cons_of_neg (p := fun (x : WorkspaceConnection) => x.id == id) _ hpa]
      exact find?_map_replace_other w id hne as
    · rw [if_neg ha]
      by_cases hpa : (a.id == id) = true
      · rw [List.find?_cons_of_pos (p := fun (x : WorkspaceConnection) => x.id == id) _ hpa,
          List.find?_cons_of_pos (p := fun (x : WorkspaceConnection) => x.id == id) _ hpa]
      · rw [List.find?_cons_of_neg (p := fun (x : WorkspaceConnection) => x.id == id) _ hpa,
          List.find?_cons_of_neg (p := fun (x : WorkspaceConnection) => x.id == id) _ hpa]
        exact find?_map_replace_other w id hne as

theorem getWs_upsert_self (r : Registry) (w : WorkspaceConnection) :
    getWs (upsert r w) w.id = some w := by
  unfold upsert getWs
  by_cases h : (List.any r fun x => x.id == w.id) = true
  · rw [if_pos h]
    exact find?_map_replace w r h
  · rw [if_neg h, List.find?_append]
    have hr : List.find? (fun x => x.id == w.id) r = none := by
      rw [List.find?_eq_none]
      intro x hx hpx
      exact h (List.any_eq_true.mpr ⟨x, hx, hpx⟩)
    rw [hr]
    simp [List.find?_cons_of_pos]

theorem getWs_upsert_other (r : Registry) (w : WorkspaceConnection) (id : String)
    (hne : id ≠ w.id) : getWs (upsert r w) id = getWs r id := by
  unfold upsert getWs
  by_cases h : (List.any r fun x => x.id == w.id) = true
  · rw [if_pos h]
    exact find?_map_replace_other w id hne r
  · rw [if_neg h, List.find?_append]
    have hw : List.find? (fun x => x.id == id) [w] = none := by
      rw [List.find?_eq_none]
      intro x hx hpx
      rcases List.mem_singleton.mp hx with rfl
      exact hne (beq_iff_eq.mp hpx).symm
    rw [hw]
    cases List.find? (fun x => x.id == id) r <;> rfl

theorem getWs_foldl_of_none (id : String) :
    ∀ (ws : List WorkspaceConnection) (r : Registry),
      (∀ x ∈ ws, x.id ≠ id) →
      getWs (List.foldl upsert r ws) id = getWs r id
  | [], _, _ => rfl
  | a :: as, r, h => by
    rw [List.foldl_cons]
    rw [getWs_foldl_of_none id as (upsert r a)
      (fun x hx => h x (List.mem_cons_of_mem a hx))]
    exact getWs_upsert_other r a id
      (fun he => h a (List.mem_cons_self a as) he.symm)

theorem mem_listIds_of_getWs (r : Registry) (id : String) (x : WorkspaceConnection)
    (h : getWs r id = some x) : id ∈ listIds r := by
  unfold getWs at h
  have hm := List.mem_of_find?_eq_some h
  have hp : x.id = id := by simpa using List.find?_some h
  unfold listIds
  exact hp ▸ List.mem_map_of_mem _ hm

theorem mem_listIds_upsert (r : Registry) (w : WorkspaceConnection) (id : String)
    (h : id ∈ listIds r) : id ∈ listIds (upsert r w) := by
  unfold listIds at h ⊢
  unfold upsert
  by_cases ha : (List.any r fun x => x.id == w.id) = true
  · rw [if_pos ha]
    rcases List.mem_map.mp h with ⟨x, hx, hxid⟩
    rw [List.map_map]
    apply List.mem_map.mpr
    refine ⟨x, hx, ?_⟩
    by_cases hxw : (x.id == w.id) = true
    · have hx2 : x.id = w.id := by simpa using hxw
      simp only [Function.comp, if_pos hxw]
      rw [← hx2, hxid]
    · simp only [Function.comp, if_neg hxw]
      exact hxid
  · rw [if_neg ha, List.map_append]
    exact List.mem_append_left _ h

theorem mem_listIds_foldl_mono (id : String) :
    ∀ (ws : List WorkspaceConnection) (r : Registry),
      id ∈ listIds r → id ∈ listIds (List.foldl upsert r ws)
  | [], _, h => h
  | a :: as, r, h => by
    rw [List.foldl_cons]
    exact mem_listIds_foldl_mono id as (upsert r a) (mem_listIds_upsert r a id h)

theorem mem_listIds_foldl (w : WorkspaceConnection) :
    ∀ (ws : List WorkspaceConnection) (r : Registry),
      w ∈ ws → w.id ∈ listIds (List.foldl upsert r ws)
  | [], _, h => absurd h (List.not_mem_nil w)
  | a :: as, r, h => by
    rw [List.foldl_cons]
    rcases List.mem_cons.mp h with rfl | hmem
    · exact mem_listIds_foldl_mono w.id as (upsert r w)
        (mem_listIds_of_getWs _ _ _ (getWs_upsert_self r w))
    · exact mem_listIds_foldl w as (upsert r a) hmem

theorem getWs_map_listIds (r : Registry) (h : (listIds r).Nodup) :
    List.map (fun id => (getWs r id).getD default) (listIds r) = r := by
  induction r with
  | nil => rfl
  | cons a as ih =>
    have hids : listIds (a :: as) = a.id :: listIds as := rfl
    rw [hids] at h ⊢
    have hnot := (List.nodup_cons.mp h).1
    have htl := (List.nodup_cons.mp h).2
    rw [List.map_cons]
    have h1 : getWs (a :: as) a.id = some a :=
      List.find?_cons_of_pos (p := fun (x : WorkspaceConnection) => x.id == a.id) _ (by simp)
    rw [h1]
    have h2 : List.map (fun id => (getWs (a :: as) id).getD default) (listIds as)
        = List.map (fun id => (getWs as id).getD default) (listIds as) := by
      apply List.map_congr_left
      intro id hid
      have hne : ¬ ((a.id == id) = true) := by
        simp only [beq_iff_eq]
        exact fun he => hnot (he ▸ hid)
      unfold getWs
      rw [List.find?_cons_of_neg (p := fun (x : WorkspaceConnection) => x.id == id) _ hne]
    rw [h2, ih htl]
    rfl

theorem targetSubmit_no_item (env : SubmitEnv) (arg cur : Option WorkspaceTreeItem)
    (hres : resolveItem arg cur = none) : targetSubmit env arg cur = [] := by
  simp [targetSubmit, hres]

theorem targetSubmit_wrong_type (env : SubmitEnv) (arg cur : Option WorkspaceTreeItem)
    (ti : WorkspaceTreeItem) (hres : resolveItem arg cur = some ti)
    (ht : ti.type ≠ "target") : targetSubmit env arg cur = [] := by
  simp [targetSubmit, hres, ht]

theorem targetSubmit_gen_error (env : SubmitEnv) (arg cur : Option WorkspaceTreeItem)
    (ti : WorkspaceTreeItem) (m : String) (hres : resolveItem arg cur = some ti)
    (ht : ti.type = "target") (hq : env.qirResult = .qirGenerationError m) :
    targetSubmit env arg cur = [Effect.showError m false none] := by
  simp [targetSubmit, hres, ht, hq]

theorem targetSubmit_other_error (env : SubmitEnv) (arg cur : Option WorkspaceTreeItem)
    (hq : env.qirResult = .otherError) : targetSubmit env arg cur = [] := by
  cases hres : resolveItem arg cur with
  | none => simp [targetSubmit, hres]
  | some ti =>
    by_cases ht : ti.type = "target" <;> simp [targetSubmit, hres, ht, hq]

theorem targetSubmit_empty_qir (env : SubmitEnv) (arg cur : Option WorkspaceTreeItem)
    (hq : env.qirResult = .ok "") : targetSubmit env arg cur = [] := by
  cases hres : resolveItem arg cur with
  | none => simp [targetSubmit, hres]
  | some ti =>
    by_cases ht : ti.type = "target" <;> simp [targetSubmit, hres, ht, hq]

theorem targetSubmit_token_thrown (env : SubmitEnv) (arg cur : Option WorkspaceTreeItem)
    (ti : WorkspaceTreeItem) (q : String) (m : Option String)
    (hres : resolveItem arg cur = some ti) (ht : ti.type = "target")
    (hq : env.qirResult = .ok q) (hqne : q ≠ "")
    (htok : env.tokenResult = .thrown m) :
    targetSubmit env arg cur
      = [Effect.showError "Failed to submit the job to Azure." true m] := by
  simp [targetSubmit, hres, ht, hq, hqne, htok]

theorem targetSubmit_token_falsy (env : SubmitEnv) (arg cur : Option WorkspaceTreeItem)
    (q : String) (hq : env.qirResult = .ok q)
    (htok : env.tokenResult = .ok none ∨ env.tokenResult = .ok (some "")) :
    targetSubmit env arg cur = [] := by
  cases hres : resolveItem arg cur with
  | none => simp [targetSubmit, hres]
  | some ti =>
    by_cases ht : ti.type = "target"
    · by_cases hqe : q = ""
      · subst hqe
        exact targetSubmit_empty_qir env arg cur hq
      · rcases htok with h | h <;> simp [targetSubmit, hres, ht, hq, hqe, h, truthyOpt]
    · simp [targetSubmit, hres, ht]

theorem targetSubmit_submit_thrown (env : SubmitEnv) (arg cur : Option WorkspaceTreeItem)
    (ti : WorkspaceTreeItem) (q t : String) (m : Option String)
    (hres : resolveItem arg cur = some ti) (ht : ti.type = "target")
    (hq : env.qirResult = .ok q) (hqne : q ≠ "")
    (htok : env.tokenResult = .ok (some t)) (htne : t ≠ "")
    (hsub : env.submitResult = .thrown m) :
    targetSubmit env arg cur
      = [Effect.submitJobCall t q ((ti.asTarget.id.splitOn ".").headD "")
          ti.asTarget.id ti.workspace.endpointUri ti.workspace.id,
         Effect.showError "Failed to submit the job to Azure." true m] := by
  simp [targetSubmit, hres, ht, hq, hqne, htok, htne, hsub, truthyOpt]

theorem targetSubmit_success (env : SubmitEnv) (arg cur : Option WorkspaceTreeItem)
    (ti : WorkspaceTreeItem) (q t jid : String)
    (hres : resolveItem arg cur = some ti) (ht : ti.type = "target")
    (hq : env.qirResult = .ok q) (hqne : q ≠ "")
    (htok : env.tokenResult = .ok (some t)) (htne : t ≠ "")
    (hsub : env.submitResult = .ok jid) (hjne : jid ≠ "") :
    targetSubmit env arg cur
      = [Effect.submitJobCall t q ((ti.asTarget.id.splitOn ".").headD "")
          ti.asTarget.id ti.workspace.endpointUri ti.workspace.id,
         Effect.startCycle ti.workspace.id (some jid)] := by
  simp [targetSubmit, hres, ht, hq, hqne, htok, htne, hsub, hjne, truthyOpt]

theorem startCycle_mem_targetSubmit (env : SubmitEnv)
    (arg cur : Option WorkspaceTreeItem) (wsId : String) (j : Option String)
    (hmem : Effect.startCycle wsId j ∈ targetSubmit env arg cur) :
    ∃ ti jid q t, resolveItem arg cur = some ti ∧ ti.type = "target" ∧
      env.qirResult = .ok q ∧ q ≠ "" ∧
      env.tokenResult = .ok (some t) ∧ t ≠ "" ∧
      env.submitResult = .ok jid ∧ jid ≠ "" ∧
      j = some jid ∧ wsId = ti.workspace.id := by
  cases hres : resolveItem arg cur with
  | none => rw [targetSubmit_no_item env arg cur hres] at hmem; simp at hmem
  | some ti =>
    by_cases ht : ti.type = "target"
    case neg =>
      rw [targetSubmit_wrong_type env arg cur ti hres ht] at hmem
      simp at hmem
    case pos =>
      cases hq : env.qirResult with
      | qirGenerationError m =>
        rw [targetSubmit_gen_error env arg cur ti m hres ht hq] at hmem
        simp at hmem
      | otherError =>
        rw [targetSubmit_other_error env arg cur hq] at hmem
        simp at hmem
      | ok q =>
        by_cases hqe : q = ""
        · subst hqe
          rw [targetSubmit_empty_qir env arg cur hq] at hmem
          simp at hmem
        · cases htok : env.tokenResult with
          | thrown m =>
            rw [targetSubmit_token_thrown env arg cur ti q m hres ht hq hqe htok] at hmem
            simp at hmem
          | ok token =>
            match token with
            | none =>
              rw [targetSubmit_token_falsy env arg cur q hq (Or.inl htok)] at hmem
              simp at hmem
            | some t =>
              by_cases hte : t = ""
              · subst hte
                rw [targetSubmit_token_falsy env arg cur q hq (Or.inr htok)] at hmem
                simp at hmem
              · cases hsub : env.submitResult with
                | thrown m =>
                  rw [targetSubmit_submit_thrown env arg cur ti q t m
                    hres ht hq hqe htok hte hsub] at hmem
                  simp at hmem
                | ok jid =>
                  by_cases hje : jid = ""
                  · subst hje
                    have : targetSubmit env arg cur
                        = [Effect.submitJobCall t q
                            ((ti.asTarget.id.splitOn ".").headD "") ti.asTarget.id
                            ti.workspace.endpointUri ti.workspace.id] := by
                      simp [targetSubmit, hres, ht, hq, hqe, htok, hte, hsub, truthyOpt]
                    rw [this] at hmem
                    simp at hmem
                  · rw [targetSubmit_success env arg cur ti q t jid
                      hres ht hq hqe htok hte hsub hje] at hmem
                    simp only [List.mem_cons, List.mem_singleton] at hmem
                    rcases hmem with h | h | h
                    · exact absurd h (by simp)
                    · refine ⟨ti, jid, q, t, rfl, ht, rfl, hqe, rfl, hte, rfl, hje, ?_, ?_⟩
                      · exact (Effect.startCycle.injEq ..).mp h |>.2
                      · exact (Effect.startCycle.injEq ..).mp h |>.1
                    · simp at h

theorem downloadResults_noop_cases (uriPath : String → String) (tk : TokenResult)
    (f : FetchResult) (arg cur : Option WorkspaceTreeItem)
    (h : ∀ ti, resolveItem arg cur = some ti → ti.type ≠ "job") :
    downloadResults uriPath tk f arg cur = [] := by
  cases hres : resolveItem arg cur with
  | none => simp [downloadResults, hres]
  | some ti => simp [downloadResults, hres, h ti hres]

theorem downloadResults_token_falsy (uriPath : String → String) (tk : TokenResult)
    (f : FetchResult) (arg cur : Option WorkspaceTreeItem)
    (htok : tk = TokenResult.ok none ∨ tk = TokenResult.ok (some "")) :
    downloadResults uriPath tk f arg cur = [] := by
  cases hres : resolveItem arg cur with
  | none => simp [downloadResults, hres]
  | some ti =>
    by_cases ht : ti.type = "job"
    · by_cases hu : truthyOpt ti.asJob.outputDataUri = true
      · rcases htok with h | h <;>
          simp [downloadResults, hres, ht, hu, h, truthyOpt]
      · simp [downloadResults, hres, ht, hu]
    · simp [downloadResults, hres, ht]

/-- C5: for every sequence of upsert calls on the Workspace Registry,
`get(id)` after the last upsert for a given id returns exactly that call
full WorkspaceConnection snapshot, its providers and jobs lists wholly
replaced and never merged with fields from an earlier snapshot. -/
theorem registry_get_after_last_upsert (r : Registry)
    (calls : List WorkspaceConnection) (id : String) (w : WorkspaceConnection)
    (h : (List.filter (fun x => x.id == id) calls).getLast? = some w) :
    getWs (List.foldl upsert r calls) id = some w := by
  induction calls generalizing r with
  | nil => simp at h
  | cons a as ih =>
    rw [List.foldl_cons]
    rw [List.filter_cons] at h
    by_cases hfe : List.filter (fun x => x.id == id) as = []
    · by_cases hpa : (a.id == id) = true
      · rw [if_pos hpa, hfe] at h
        simp only [List.getLast?_singleton, Option.some.injEq] at h
        subst h
        rw [getWs_foldl_of_none id as (upsert r a) (fun x hx => by
          have := List.filter_eq_nil_iff.mp hfe x hx
          simpa using this)]
        have haw : a.id = id := beq_iff_eq.mp hpa
        rw [← haw]
        exact getWs_upsert_self r a
      · rw [if_neg hpa, hfe] at h
        simp at h
    · by_cases hpa : (a.id == id) = true
      · rw [if_pos hpa] at h
        rcases List.exists_cons_of_ne_nil hfe with ⟨b, t, hbt⟩
        rw [hbt, List.getLast?_cons_cons, ← hbt] at h
        exact ih (upsert r a) h
      · rw [if_neg hpa] at h
        exact ih (upsert r a) h

/-- C5 witness: after upserting ws-1, ws-2 and then a renamed ws-1, the
registry returns exactly the renamed snapshot for ws-1. -/
theorem registry_get_after_last_upsert_witness :
    getWs (List.foldl upsert [] [sampleWorkspace, sampleWorkspace2,
        { sampleWorkspace with name := "Renamed" }]) "ws-1"
      = some { sampleWorkspace with name := "Renamed" } :=
  registry_get_after_last_upsert [] _ "ws-1" _ (by decide)

/-- C1: `saveWorkspaceList` performs exactly one secret-store write,
under the single key "qsharp-vscode.workspaces", whose value is the
JSON-encoded list of one record per registry workspace, each keeping
that workspace id, name, endpointUri, tenantId and apiKey and having
empty providers and jobs lists. -/
theorem saveWorkspaceList_single_key_stripped (r : Registry)
    (h : (listIds r).Nodup) :
    saveWorkspaceList r = Effect.persist "qsharp-vscode.workspaces"
      (jsonArray (List.map (fun w => workspaceConnectionJson (persistedRecord w)) r))
    ∧ ∀ w : WorkspaceConnection,
        (persistedRecord w).id = w.id ∧ (persistedRecord w).name = w.name ∧
        (persistedRecord w).endpointUri = w.endpointUri ∧
        (persistedRecord w).tenantId = w.tenantId ∧
        (persistedRecord w).apiKey = w.apiKey ∧
        (persistedRecord w).providers = [] ∧ (persistedRecord w).jobs = [] := by
  constructor
  · show Effect.persist workspacesSecret _ = _
    rw [getWs_map_listIds r h, List.map_map]
    rfl
  · exact fun w => ⟨rfl, rfl, rfl, rfl, rfl, rfl, rfl⟩

/-- C1 witness: the persisted value for a two-workspace registry. -/
theorem saveWorkspaceList_single_key_stripped_witness :
    saveWorkspaceList [sampleWorkspace, sampleWorkspace2]
      = Effect.persist "qsharp-vscode.workspaces"
        (jsonArray (List.map (fun w => workspaceConnectionJson (persistedRecord w))
          [sampleWorkspace, sampleWorkspace2])) :=
  (saveWorkspaceList_single_key_stripped [sampleWorkspace, sampleWorkspace2]
    (by decide)).1

/-- C2: on initialization, every workspace of the persisted list is
handed to `updateWorkspace` (so its id appears among the registry ids)
and exactly one Refresh Cycle is started per persisted entry; with no
persisted list nothing is added and no cycle is started. -/
theorem initAzureWorkspaces_loads_and_starts_cycles :
    initAzureWorkspaces none = ([], []) ∧
    ∀ ws : List WorkspaceConnection,
      (initAzureWorkspaces (some ws)).2
        = List.map (fun w => Effect.startCycle w.id none) ws ∧
      ∀ w ∈ ws, w.id ∈ listIds (initAzureWorkspaces (some ws)).1 :=
  ⟨rfl, fun ws => ⟨rfl, fun w hw => mem_listIds_foldl w ws [] hw⟩⟩

/-- C2 witness: both persisted workspaces appear and get one cycle each. -/
theorem initAzureWorkspaces_loads_and_starts_cycles_witness :
    (initAzureWorkspaces (some [sampleWorkspace, sampleWorkspace2])).2
      = [Effect.startCycle "ws-1" none, Effect.startCycle "ws-2" none] ∧
    sampleWorkspace.id
      ∈ listIds (initAzureWorkspaces (some [sampleWorkspace, sampleWorkspace2])).1 :=
  ⟨(initAzureWorkspaces_loads_and_starts_cycles.2
      [sampleWorkspace, sampleWorkspace2]).1,
   (initAzureWorkspaces_loads_and_starts_cycles.2
      [sampleWorkspace, sampleWorkspace2]).2 sampleWorkspace
     (List.mem_cons_self _ _)⟩

/-- C9: when workspace discovery returns a workspace, `workspacesAdd`
upserts it into the Registry (so `get` returns it) and then persists the
workspace list computed from the updated Registry; when discovery
returns nothing, Registry and persisted list are untouched. -/
theorem workspacesAdd_upserts_then_persists (r : Registry)
    (queried : Option WorkspaceConnection) :
    (queried = none → workspacesAdd r queried = (r, [])) ∧
    ∀ w, queried = some w →
      (workspacesAdd r queried).1 = upsert r w ∧
      getWs (workspacesAdd r queried).1 w.id = some w ∧
      (workspacesAdd r queried).2
        = [saveWorkspaceList (upsert r w), Effect.startCycle w.id none] := by
  constructor
  · rintro rfl
    rfl
  · rintro w rfl
    exact ⟨rfl, getWs_upsert_self r w, rfl⟩

/-- C9 witness: adding ws-1 to the empty registry. -/
theorem workspacesAdd_upserts_then_persists_witness :
    (workspacesAdd [] (some sampleWorkspace)).1 = upsert [] sampleWorkspace ∧
    getWs (workspacesAdd [] (some sampleWorkspace)).1 sampleWorkspace.id
      = some sampleWorkspace ∧
    (workspacesAdd [] (some sampleWorkspace)).2
      = [saveWorkspaceList (upsert [] sampleWorkspace),
         Effect.startCycle sampleWorkspace.id none] :=
  (workspacesAdd_upserts_then_persists [] (some sampleWorkspace)).2
    sampleWorkspace rfl

/-- C7: when the resolved tree item (the argument, or else the current
selection) is absent or not of the required type, targetSubmit,
workspacesRemove and downloadResults return with no effect and no
registry change. -/
theorem handlers_noop_on_missing_or_wrong_item (arg cur : Option WorkspaceTreeItem) :
    (∀ env, (∀ ti, resolveItem arg cur = some ti → ti.type ≠ "target") →
      targetSubmit env arg cur = []) ∧
    (∀ r : Registry, (∀ ti, resolveItem arg cur = some ti → ti.type ≠ "workspace") →
      workspacesRemove r arg cur = (r, [])) ∧
    (∀ (uriPath : String → String) (tk : TokenResult) (f : FetchResult),
      (∀ ti, resolveItem arg cur = some ti → ti.type ≠ "job") →
      downloadResults uriPath tk f arg cur = []) := by
  refine ⟨fun env h => ?_, fun r h => ?_, fun uriPath tk f h => ?_⟩
  · cases hres : resolveItem arg cur with
    | none => exact targetSubmit_no_item env arg cur hres
    | some ti => exact targetSubmit_wrong_type env arg cur ti hres (h ti hres)
  · cases hres : resolveItem arg cur with
    | none => simp [workspacesRemove, hres]
    | some ti => simp [workspacesRemove, hres, h ti hres]
  · exact downloadResults_noop_cases uriPath tk f arg cur h

/-- C7 witness: with no argument and no selection all three handlers
no-op. -/
theorem handlers_noop_on_missing_or_wrong_item_witness :
    targetSubmit ⟨.ok "qir", .ok (some "tok"), .ok "job-9"⟩ none none = [] ∧
    workspacesRemove [sampleWorkspace] none none = ([sampleWorkspace], []) ∧
    downloadResults (fun s => s) (.ok (some "tok")) (.ok "data") none none = [] :=
  ⟨(handlers_noop_on_missing_or_wrong_item none none).1 _ (fun ti h => by
      simp [resolveItem] at h),
   (handlers_noop_on_missing_or_wrong_item none none).2.1 _ (fun ti h => by
      simp [resolveItem] at h),
   (handlers_noop_on_missing_or_wrong_item none none).2.2 _ _ _ (fun ti h => by
      simp [resolveItem] at h)⟩

/-- C10: a falsy token from getTokenForWorkspace makes both targetSubmit
(once program generation produced a result) and downloadResults return
silently: no effects at all, in particular no submission, no blob fetch
and no error message. -/
theorem falsy_token_silent_return (arg cur : Option WorkspaceTreeItem) :
    (∀ (env : SubmitEnv) (q : String), env.qirResult = .ok q →
      (env.tokenResult = .ok none ∨ env.tokenResult = .ok (some "")) →
      targetSubmit env arg cur = []) ∧
    (∀ (uriPath : String → String) (f : FetchResult) (tk : TokenResult),
      (tk = TokenResult.ok none ∨ tk = TokenResult.ok (some "")) →
      downloadResults uriPath tk f arg cur = []) :=
  ⟨fun env q hq htok => targetSubmit_token_falsy env arg cur q hq htok,
   fun uriPath f tk htok => downloadResults_token_falsy uriPath tk f arg cur htok⟩

/-- C10 witness: an undefined token silences both handlers on a concrete
target item and job item. -/
theorem falsy_token_silent_return_witness :
    targetSubmit ⟨.ok "qir", .ok none, .ok "job-9"⟩ (some sampleTargetItem) none = [] ∧
    downloadResults (fun s => s) (.ok none) (.ok "data")
      (some sampleJobItem) none = [] :=
  ⟨(falsy_token_silent_return (some sampleTargetItem) none).1 _ "qir" rfl (Or.inl rfl),
   (falsy_token_silent_return (some sampleJobItem) none).2 _ _ _ (Or.inl rfl)⟩

/-- C3 counterexample: on a concrete target item, a program-generation
failure (a thrown QirGenerationError) is surfaced through a NON-modal
error message, not a modal one as the claim states: the handler output
is exactly one `showError` with the modal flag false, and no effect in
it is a modal error message. -/
theorem targetSubmit_gen_error_not_modal_cex :
    targetSubmit ⟨.qirGenerationError "QIR generation failed",
        .ok (some "tok"), .ok "job-1"⟩ (some sampleTargetItem) none
      = [Effect.showError "QIR generation failed" false none] ∧
    (List.any (targetSubmit ⟨.qirGenerationError "QIR generation failed",
          .ok (some "tok"), .ok "job-1"⟩ (some sampleTargetItem) none)
        (fun e => match e with
          | Effect.showError _ modal _ => modal
          | _ => false)) = false := by
  constructor <;> rfl

/-- C3 (amended): when program generation throws a QirGenerationError
the handler surfaces its message as a NON-modal error message (and is
silent on other generation failures); when job submission throws, the
handler surfaces a modal error message; in all these failure cases no
job is created and no Refresh Cycle is started. -/
theorem targetSubmit_failure_surfacing (env : SubmitEnv)
    (arg cur : Option WorkspaceTreeItem) :
    (∀ m, env.qirResult = .qirGenerationError m →
      (targetSubmit env arg cur = [] ∨
       targetSubmit env arg cur = [Effect.showError m false none])) ∧
    (env.qirResult = .otherError → targetSubmit env arg cur = []) ∧
    (∀ q t m, env.qirResult = .ok q → q ≠ "" →
      env.tokenResult = .ok (some t) → t ≠ "" → env.submitResult = .thrown m →
      targetSubmit env arg cur = [] ∨
      ∃ c, targetSubmit env arg cur
          = [c, Effect.showError "Failed to submit the job to Azure." true m] ∧
        ∀ wsId j, c ≠ Effect.startCycle wsId j) ∧
    (((∃ m, env.submitResult = .thrown m) ∨
        (∃ m, env.qirResult = .qirGenerationError m) ∨
        env.qirResult = .otherError) →
      ∀ wsId j, Effect.startCycle wsId j ∉ targetSubmit env arg cur) := by
  refine ⟨fun m hq => ?_, fun hq => targetSubmit_other_error env arg cur hq,
    fun q t m hq hqne htok htne hsub => ?_, fun hfail wsId j hmem => ?_⟩
  · cases hres : resolveItem arg cur with
    | none => exact Or.inl (targetSubmit_no_item env arg cur hres)
    | some ti =>
      by_cases ht : ti.type = "target"
      · exact Or.inr (targetSubmit_gen_error env arg cur ti m hres ht hq)
      · exact Or.inl (targetSubmit_wrong_type env arg cur ti hres ht)
  · cases hres : resolveItem arg cur with
    | none => exact Or.inl (targetSubmit_no_item env arg cur hres)
    | some ti =>
      by_cases ht : ti.type = "target"
      · refine Or.inr ⟨_, targetSubmit_submit_thrown env arg cur ti q t m
          hres ht hq hqne htok htne hsub, ?_⟩
        intro wsId j
        simp
      · exact Or.inl (targetSubmit_wrong_type env arg cur ti hres ht)
  · obtain ⟨ti, jid, q, t, _, _, hq2, _, _, _, hsub2, _, _, _⟩ :=
      startCycle_mem_targetSubmit env arg cur wsId j hmem
    rcases hfail with ⟨m, hm⟩ | ⟨m, hm⟩ | hm
    · rw [hm] at hsub2
      exact SubmitResult.noConfusion hsub2
    · rw [hm] at hq2
      exact QirResult.noConfusion hq2
    · rw [hm] at hq2
      exact QirResult.noConfusion hq2

/-- C3 witness: the generation-failure branch of the amended theorem on
a concrete input. -/
theorem targetSubmit_failure_surfacing_witness :
    targetSubmit ⟨.qirGenerationError "entry point missing",
        .ok (some "tok"), .ok "job-1"⟩ (some sampleTargetItem) none = [] ∨
    targetSubmit ⟨.qirGenerationError "entry point missing",
        .ok (some "tok"), .ok "job-1"⟩ (some sampleTargetItem) none
      = [Effect.showError "entry point missing" false none] :=
  (targetSubmit_failure_surfacing _ (some sampleTargetItem) none).1
    "entry point missing" rfl

/-- C4: on a target item, with a non-empty generated program, a truthy
token and a submitJob call returning a job id, targetSubmit starts one
Refresh Cycle for that target workspace with the new job id prioritized;
and any started cycle carries a job id that submitJob returned. -/
theorem targetSubmit_starts_cycle_iff_job_id (env : SubmitEnv)
    (arg cur : Option WorkspaceTreeItem) :
    (∀ ti q t jid, resolveItem arg cur = some ti → ti.type = "target" →
      env.qirResult = .ok q → q ≠ "" →
      env.tokenResult = .ok (some t) → t ≠ "" →
      env.submitResult = .ok jid → jid ≠ "" →
      Effect.startCycle ti.workspace.id (some jid) ∈ targetSubmit env arg cur) ∧
    (∀ wsId j, Effect.startCycle wsId j ∈ targetSubmit env arg cur →
      ∃ jid, env.submitResult = .ok jid ∧ jid ≠ "" ∧ j = some jid) := by
  constructor
  · intro ti q t jid hres ht hq hqne htok htne hsub hjne
    rw [targetSubmit_success env arg cur ti q t jid hres ht hq hqne htok htne hsub hjne]
    simp
  · intro wsId j hmem
    obtain ⟨ti, jid, q, t, _, _, _, _, _, _, hsub, hjne, hj, _⟩ :=
      startCycle_mem_targetSubmit env arg cur wsId j hmem
    exact ⟨jid, hsub, hjne, hj⟩

/-- C4 witness: a successful submission on a concrete target item starts
the cycle for its workspace with the new job id. -/
theorem targetSubmit_starts_cycle_iff_job_id_witness :
    Effect.startCycle sampleTargetItem.workspace.id (some "job-1")
      ∈ targetSubmit ⟨.ok "qir", .ok (some "tok"), .ok "job-1"⟩
          (some sampleTargetItem) none :=
  (targetSubmit_starts_cycle_iff_job_id ⟨.ok "qir", .ok (some "tok"), .ok "job-1"⟩
      (some sampleTargetItem) none).1 sampleTargetItem "qir" "tok" "job-1"
    rfl rfl rfl (by decide) rfl (by decide) rfl (by decide)

/-- C6: starting a second Refresh Cycle for a workspace id supersedes
the first: a tick of the superseded cycle never mutates the state, and
after both cycles have ticked once (in either order) the Registry
reflects only the snapshot fetched by the later-started cycle. -/
theorem refreshCycle_supersession (s0 : RefreshState) (wsId : String)
    (snapA snapB : WorkspaceConnection) (hB : snapB.id = wsId) :
    refreshTick (startRefreshCycleGen (startRefreshCycleGen s0 wsId).1 wsId).1 wsId
        (startRefreshCycleGen s0 wsId).2 snapA
      = (startRefreshCycleGen (startRefreshCycleGen s0 wsId).1 wsId).1 ∧
    getWs (refreshTick (refreshTick
        (startRefreshCycleGen (startRefreshCycleGen s0 wsId).1 wsId).1 wsId
        (startRefreshCycleGen (startRefreshCycleGen s0 wsId).1 wsId).2 snapB) wsId
        (startRefreshCycleGen s0 wsId).2 snapA).registry wsId = some snapB ∧
    getWs (refreshTick (refreshTick
        (startRefreshCycleGen (startRefreshCycleGen s0 wsId).1 wsId).1 wsId
        (startRefreshCycleGen s0 wsId).2 snapA) wsId
        (startRefreshCycleGen (startRefreshCycleGen s0 wsId).1 wsId).2 snapB).registry
      wsId = some snapB := by
  have hg1 : (startRefreshCycleGen s0 wsId).2 = s0.generations wsId + 1 := rfl
  have hg2 : (startRefreshCycleGen (startRefreshCycleGen s0 wsId).1 wsId).2
      = s0.generations wsId + 2 := by
    simp [startRefreshCycleGen]
  have hsg : (startRefreshCycleGen (startRefreshCycleGen s0 wsId).1 wsId).1.generations
      wsId = s0.generations wsId + 2 := by
    simp [startRefreshCycleGen]
  rw [hg1, hg2]
  generalize hS2 : (startRefreshCycleGen (startRefreshCycleGen s0 wsId).1 wsId).1 = S2
  rw [hS2] at hsg
  have h1 : refreshTick S2 wsId (s0.generations wsId + 1) snapA = S2 := by
    have hne : ¬ (S2.generations wsId = s0.generations wsId + 1) := by
      rw [hsg]
      omega
    unfold refreshTick
    rw [if_neg hne]
  have h2 : refreshTick S2 wsId (s0.generations wsId + 2) snapB
      = { S2 with registry := upsert S2.registry snapB } := by
    unfold refreshTick
    rw [if_pos hsg]
  have h3 : refreshTick { S2 with registry := upsert S2.registry snapB } wsId
      (s0.generations wsId + 1) snapA
      = { S2 with registry := upsert S2.registry snapB } := by
    have hne : ¬ (({ S2 with registry := upsert S2.registry snapB }
        : RefreshState).generations wsId = s0.generations wsId + 1) := by
      have heq : ({ S2 with registry := upsert S2.registry snapB }
          : RefreshState).generations = S2.generations := rfl
      rw [heq, hsg]
      omega
    unfold refreshTick
    rw [if_neg hne]
  refine ⟨h1, ?_, ?_⟩
  · rw [h2, h3]
    show getWs (upsert S2.registry snapB) wsId = some snapB
    rw [← hB]
    exact getWs_upsert_self _ snapB
  · rw [h1, h2]
    show getWs (upsert S2.registry snapB) wsId = some snapB
    rw [← hB]
    exact getWs_upsert_self _ snapB

/-- C6 witness: with both cycles started from the zero state, a stale
tick after a fresh tick leaves the later cycle snapshot in place. -/
theorem refreshCycle_supersession_witness :
    getWs (refreshTick (refreshTick
        (startRefreshCycleGen (startRefreshCycleGen refreshStateZero "ws-1").1
          "ws-1").1 "ws-1"
        (startRefreshCycleGen (startRefreshCycleGen refreshStateZero "ws-1").1
          "ws-1").2 sampleWorkspace) "ws-1"
        (startRefreshCycleGen refreshStateZero "ws-1").2 sampleWorkspace2).registry
      "ws-1" = some sampleWorkspace :=
  (refreshCycle_supersession refreshStateZero "ws-1" sampleWorkspace2
    sampleWorkspace rfl).2.1

/-- C8: after a selection change the three UI-context flags are exactly
a function of the selection: supports-QIR iff a single selected target
whose label satisfies the targetSupportQir predicate; supports-download
iff a single selected job with status Succeeded and a truthy
outputDataUri; is-workspace iff a single selected workspace. -/
theorem selection_sets_context_flags (f : String → Bool)
    (sel : List WorkspaceTreeItem) :
    ((onDidChangeSelection f sel).1.supportsQir = true ↔
      ∃ item, sel = [item] ∧ item.type = "target" ∧
        f (item.label.getD "") = true) ∧
    ((onDidChangeSelection f sel).1.supportsDownload = true ↔
      ∃ item, sel = [item] ∧ item.type = "job" ∧
        item.asJob.status = "Succeeded" ∧
        truthyOpt item.asJob.outputDataUri = true) ∧
    ((onDidChangeSelection f sel).1.isWorkspace = true ↔
      ∃ item, sel = [item] ∧ item.type = "workspace") := by
  rcases sel with _ | ⟨a, _ | ⟨b, t⟩⟩
  · simp [onDidChangeSelection]
  · refine ⟨?_, ?_, ?_⟩ <;>
      simp [onDidChangeSelection, Bool.and_eq_true, beq_iff_eq, and_assoc]
  · simp [onDidChangeSelection]

/-- C8 witness: a single selected QIR-capable target sets supports-QIR. -/
theorem selection_sets_context_flags_witness :
    (onDidChangeSelection (fun s => s == "prov.sim")
        [sampleTargetItem]).1.supportsQir = true :=
  (selection_sets_context_flags (fun s => s == "prov.sim")
      [sampleTargetItem]).1.mpr ⟨sampleTargetItem, rfl, rfl, by decide⟩

end QSharpAzure
